import Mathlib

/-!
Shallow embedding of the carousel / slide-transition controller of
`src/static/js/modern-slider.js` (class `ModernHeroSlider`) and the stagger-delay
computation of `src/static/js/motion.js` (`Motion.calculateStaggerDelays`),
together with theorems settling the specification claims about them.

Modelling conventions:
* DOM `classList` state for the slides and dots is modelled as a `List Bool`
  (one "active"-class flag per element); `slides[i]?.classList` with an
  out-of-range or negative index is a no-op, which `List.set` (no-op out of
  range) together with a non-negativity guard reproduces exactly.
* JS numbers that only ever hold integers (indices, pixel coordinates,
  millisecond delays) are modelled as `Int`/`Nat`; the JS remainder operator
  `%` is `Int.tmod` (sign of the dividend, i.e. truncated division).
* The scheduled `setTimeout` callback that clears `isTransitioning` is
  modelled as an explicit `Cmd.complete` event.
-/

/-- A pet record as supplied by the host page (`options.pets` entries used by
`updateContent`: fields `id`, `name`, `age`, `breed`). -/
structure Pet where
  id : Nat
  name : String
  age : Nat
  breed : String
deriving DecidableEq, Repr

/-- The textual/attribute content of the DOM regions written by
`updateContent`: hero title, the two CTA hrefs, and the info-card
counter/age/breed texts. -/
structure Content where
  heroTitle : String
  heroCTA1 : String
  heroCTA2 : String
  petCounter : String
  petAge : String
  petBreed : String
deriving DecidableEq, Repr

/-- Slider state: the `active` class flags of the slide and dot elements, the
pet data, `this.currentIndex`, `this.isTransitioning`, and the displayed
content. `currentIndex` is an `Int` because `goToSlide` performs no bounds
check on its argument. -/
structure SliderState where
  slides : List Bool
  dots : List Bool
  pets : List Pet
  currentIndex : Int
  isTransitioning : Bool
  content : Content
deriving DecidableEq, Repr

/-- `l[i]?.classList.add/remove("active")`: writing the active flag at a JS
numeric index; negative or out-of-range indices are no-ops (optional chaining
on an `undefined` element). -/
def setActive (l : List Bool) (i : Int) (b : Bool) : List Bool :=
  if 0 ≤ i then l.set i.toNat b else l

/-- `this.pets[index]` at a JS numeric index: `undefined` (i.e. `none`) when
negative or past the end. -/
def petAt (pets : List Pet) (i : Int) : Option Pet :=
  if 0 ≤ i then pets.get? i.toNat else none

/-- The CTA href rewrite: backtick-template `/adopt/` followed by `pet.id`. -/
def adoptLink (id : Nat) : String :=
  "/adopt/" ++ toString id

/-- JS `String.prototype.padStart(n, c)` for a single-character pad string:
prepend copies of `c` until the length is at least `n`. -/
def padStart (s : String) (n : Nat) (c : Char) : String :=
  String.mk (List.replicate (n - s.length) c ++ s.data)

/-- The counter text `String(index + 1).padStart(2, "0")`. -/
def counterText (i : Int) : String :=
  padStart (toString (i + 1)) 2 '0'

/-- The age text: `pet.age` followed by `"year"` when the age equals 1 and
`"years"` otherwise. -/
def ageText (age : Nat) : String :=
  toString age ++ " " ++ (if age = 1 then "year" else "years")

/-- `updateContent(index)`: look up `this.pets[index]`; return early when the
pet is `undefined`, otherwise rewrite the title (upper-cased name), both CTA
hrefs, and the counter/age/breed texts. -/
def updateContent (s : SliderState) (i : Int) : SliderState :=
  match petAt s.pets i with
  | none => s
  | some pet =>
      { s with content :=
          { heroTitle := pet.name.toUpper
            heroCTA1 := adoptLink pet.id
            heroCTA2 := adoptLink pet.id
            petCounter := counterText i
            petAge := ageText pet.age
            petBreed := pet.breed } }

/-- `updateSlide(index, animate)`: bail out when a transition is in flight and
`animate` is set; otherwise raise `isTransitioning`, move the `active` class
from the current slide/dot to the new one, update the content when the pets
array reaches `index` (and, on the animated path, `animateSlideTransition`
invokes `updateContent` once more from its timeline — a second write of the
same values), and commit `currentIndex := index`. The scheduled timeout that
clears `isTransitioning` is the separate `Cmd.complete` event. -/
def updateSlide (s : SliderState) (i : Int) (animate : Bool) : SliderState :=
  if s.isTransitioning ∧ animate then s
  else
    let s1 := { s with isTransitioning := true }
    let s2 := { s1 with
                 slides := setActive (setActive s1.slides s1.currentIndex false) i true
                 dots := setActive (setActive s1.dots s1.currentIndex false) i true }
    let s3 := if (s2.pets.length : Int) > i then updateContent s2 i else s2
    let s4 := if animate then updateContent s3 i else s3
    { s4 with currentIndex := i }

/-- `goToSlide(index)`: silently ignored when a transition is in flight or the
index equals the current index; no bounds check is performed. -/
def goToSlide (s : SliderState) (i : Int) : SliderState :=
  if s.isTransitioning ∨ i = s.currentIndex then s
  else updateSlide s i true

/-- `nextSlide()`: ignored mid-transition; otherwise go to
`(currentIndex + 1) % slides.length` (JS truncated remainder). -/
def nextSlide (s : SliderState) : SliderState :=
  if s.isTransitioning then s
  else goToSlide s ((s.currentIndex + 1).tmod (s.slides.length : Int))

/-- `prevSlide()`: ignored mid-transition; otherwise go to
`slides.length - 1` when at index 0, else `currentIndex - 1`. -/
def prevSlide (s : SliderState) : SliderState :=
  if s.isTransitioning then s
  else goToSlide s (if s.currentIndex = 0 then (s.slides.length : Int) - 1
                    else s.currentIndex - 1)

/-- The commands the input router produces, plus the scheduled completion
callback that resets the transition flag. -/
inductive Cmd where
  | next : Cmd
  | prev : Cmd
  | goto : Int → Cmd
  | complete : Cmd
deriving DecidableEq, Repr

/-- One event step of the controller. -/
def step (s : SliderState) : Cmd → SliderState
  | Cmd.next => nextSlide s
  | Cmd.prev => prevSlide s
  | Cmd.goto i => goToSlide s i
  | Cmd.complete => { s with isTransitioning := false }

/-- Run a sequence of commands in order. -/
def runCmds (s : SliderState) (cs : List Cmd) : SliderState :=
  cs.foldl step s

/-- The `touchend` handler: with `diffX = startX - endX` and
`diffY = startY - endY`, a swipe fires exactly when
`|diffX| > |diffY| && |diffX| > 50`; `next` when `diffX > 0`, else `prev`. -/
def touchCommand (startX startY endX endY : Int) : Option Cmd :=
  let diffX := startX - endX
  let diffY := startY - endY
  if |diffX| > |diffY| ∧ |diffX| > 50 then
    if diffX > 0 then some Cmd.next else some Cmd.prev
  else none

/-- Constructor line `this.autoPlayDelay = options.autoPlayDelay || 5000`:
an absent (or falsy, i.e. zero) option falls back to 5000. -/
def autoPlayDelayOf (opt : Option Nat) : Nat :=
  match opt with
  | none => 5000
  | some d => if d = 0 then 5000 else d

/-- The `autoPlayDelay` option passed by the page initializer registered on
`DOMContentLoaded` (`autoPlayDelay: 6000`). -/
def pageInitAutoPlayDelay : Option Nat :=
  some 6000

/-- `startAutoPlay()`: no timer when autoplay is off or there are at most
`1` slides; otherwise a periodic timer with period `delay` is installed. -/
def startAutoPlayPeriod (autoPlay : Bool) (numSlides delay : Nat) : Option Nat :=
  if autoPlay = true ∧ 1 < numSlides then some delay else none

/-- Each autoplay timer tick invokes `this.nextSlide()`. -/
def autoPlayTick (s : SliderState) : SliderState :=
  step s Cmd.next

/-- A `next` command followed by its scheduled completion. -/
def nextCompleted (s : SliderState) : SliderState :=
  step (step s Cmd.next) Cmd.complete

/-- A `prev` command followed by its scheduled completion. -/
def prevCompleted (s : SliderState) : SliderState :=
  step (step s Cmd.prev) Cmd.complete

/-- The `from` argument of `Motion.calculateStaggerDelays`: the strings
`'start'`, `'end'`, `'center'` (any other string also hits the `start`
default branch) or a number. -/
inductive StaggerFrom where
  | fromStart : StaggerFrom
  | fromEnd : StaggerFrom
  | fromCenter : StaggerFrom
  | fromIndex : Int → StaggerFrom
deriving DecidableEq, Repr

/-- `Motion.calculateStaggerDelays(length, staggerDelay, from)`: delay list of
length `length`; `delays[i]` is `i * d` from the start, `(length-1-i) * d`
from the end, `|i - floor(length/2)| * d` from the center, and `|i - k| * d`
from a numeric position `k` (the `typeof from === 'number'` override). -/
def calculateStaggerDelays (len : Nat) (d : ℚ) : StaggerFrom → List ℚ
  | StaggerFrom.fromStart => (List.range len).map fun (i : Nat) => (i : ℚ) * d
  | StaggerFrom.fromEnd => (List.range len).map fun (i : Nat) => ((len - 1 - i : Nat) : ℚ) * d
  | StaggerFrom.fromCenter =>
      (List.range len).map fun (i : Nat) => ((((i : Int)) - ((len / 2 : Nat) : Int)).natAbs : ℚ) * d
  | StaggerFrom.fromIndex k =>
      (List.range len).map fun (i : Nat) => ((((i : Int)) - k).natAbs : ℚ) * d

/-! ### Sample states for concrete witnesses -/

/-- Blank content for sample states. -/
def blankContent : Content :=
  { heroTitle := ""
    heroCTA1 := ""
    heroCTA2 := ""
    petCounter := ""
    petAge := ""
    petBreed := "" }

/-- A three-slide state with a transition in flight. -/
def busyState : SliderState :=
  { slides := [true, false, false]
    dots := [true, false, false]
    pets := []
    currentIndex := 0
    isTransitioning := true
    content := blankContent }

/-- A three-slide idle state with no pet data. -/
def idleState : SliderState :=
  { slides := [true, false, false]
    dots := [true, false, false]
    pets := []
    currentIndex := 0
    isTransitioning := false
    content := blankContent }

/-! ### C1: the in-flight guard -/

/-- C1: while `isTransitioning` is true, every `next`, `prev` or `goto`
command is a complete no-op — the state (in particular `currentIndex` and the
flag itself) is unchanged — so the flag can only be cleared by the scheduled
completion event. -/
theorem inflight_commands_are_noops (s : SliderState) (h : s.isTransitioning = true)
    (c : Cmd) (hc : c ≠ Cmd.complete) : step s c = s := by
  cases c with
  | next => simp [step, nextSlide, h]
  | prev => simp [step, prevSlide, h]
  | goto i => simp [step, goToSlide, h]
  | complete => exact absurd rfl hc

/-- Witness for C1 at a concrete in-flight state and a `next` command. -/
theorem inflight_commands_are_noops_witness :
    busyState.isTransitioning = true ∧ step busyState Cmd.next = busyState :=
  ⟨rfl, inflight_commands_are_noops busyState rfl Cmd.next (by decide)⟩

/-! ### C5: `goto(currentIndex)` is a no-op -/

/-- C5: a `goto` whose index equals the current index never starts a
transition: the whole state (flag, index, classes, content) is unchanged. -/
theorem goto_current_index_noop (s : SliderState) :
    step s (Cmd.goto s.currentIndex) = s := by
  simp [step, goToSlide]

/-! ### C7: age pluralization -/

/-- C7: the rendered age text is `"1 year"` at age 1, and the numeral followed
by `" years"` at age 0 or any age at least 2. -/
theorem age_pluralization (age : Nat) (h : age = 0 ∨ 2 ≤ age) :
    ageText 1 = "1 year" ∧ ageText age = toString age ++ " years" := by
  refine ⟨rfl, ?_⟩
  have hne : age ≠ 1 := by omega
  simp [ageText, hne, String.append_assoc]

/-- Witness for C7 at age 0. -/
theorem age_pluralization_witness :
    ((0 : Nat) = 0 ∨ 2 ≤ (0 : Nat)) ∧
      (ageText 1 = "1 year" ∧ ageText 0 = toString 0 ++ " years") :=
  ⟨Or.inl rfl, age_pluralization 0 (Or.inl rfl)⟩

/-! ### C6: the touch-swipe threshold -/

/-- C6: a swipe command fires iff the horizontal displacement strictly exceeds
both the vertical displacement and 50 (in absolute value); the command is
`next` exactly when the drag moved left (`endX < startX`), else `prev`. -/
theorem touch_swipe_threshold (sx sy ex ey : Int) :
    ((touchCommand sx sy ex ey).isSome ↔ |sx - ex| > |sy - ey| ∧ |sx - ex| > 50) ∧
    (|sx - ex| > |sy - ey| ∧ |sx - ex| > 50 →
      touchCommand sx sy ex ey = some (if ex < sx then Cmd.next else Cmd.prev)) := by
  constructor
  · simp only [touchCommand]
    by_cases h : |sx - ex| > |sy - ey| ∧ |sx - ex| > 50
    · rw [if_pos h]
      by_cases hd : sx - ex > 0
      · simp [hd, h]
      · simp [hd, h]
    · rw [if_neg h]
      simp [h]
  · intro h
    simp only [touchCommand]
    rw [if_pos h]
    by_cases hd : ex < sx
    · rw [if_pos (by omega), if_pos hd]
    · rw [if_neg (by omega), if_neg hd]

/-- Witness for C6: a 60px-horizontal / 10px-vertical leftward drag fires
exactly one `next`; a 30px horizontal drag fires nothing. -/
theorem touch_swipe_threshold_witness :
    touchCommand 60 10 0 0 = some Cmd.next ∧ touchCommand 30 0 0 0 = none := by
  constructor
  · have h := (touch_swipe_threshold 60 10 0 0).2 (by decide)
    simpa using h
  · have h := (touch_swipe_threshold 30 0 0 0).1
    have hno : ¬ ((touchCommand 30 0 0 0).isSome = true) := by
      rw [h]; decide
    exact Option.not_isSome_iff_eq_none.mp hno

/-! ### Field-preservation helper lemmas -/

lemma setActive_length (l : List Bool) (i : Int) (b : Bool) :
    (setActive l i b).length = l.length := by
  unfold setActive; split <;> simp

lemma updateContent_slides (s : SliderState) (i : Int) :
    (updateContent s i).slides = s.slides := by
  unfold updateContent; cases petAt s.pets i <;> simp

lemma updateContent_dots (s : SliderState) (i : Int) :
    (updateContent s i).dots = s.dots := by
  unfold updateContent; cases petAt s.pets i <;> simp

lemma updateContent_pets (s : SliderState) (i : Int) :
    (updateContent s i).pets = s.pets := by
  unfold updateContent; cases petAt s.pets i <;> simp

lemma updateContent_currentIndex (s : SliderState) (i : Int) :
    (updateContent s i).currentIndex = s.currentIndex := by
  unfold updateContent; cases petAt s.pets i <;> simp

lemma updateContent_isTransitioning (s : SliderState) (i : Int) :
    (updateContent s i).isTransitioning = s.isTransitioning := by
  unfold updateContent; cases petAt s.pets i <;> simp

lemma updateSlide_slides_length (s : SliderState) (i : Int) (a : Bool) :
    (updateSlide s i a).slides.length = s.slides.length := by
  unfold updateSlide
  split
  · rfl
  · dsimp only
    split
    · rw [updateContent_slides]
      split <;> simp [updateContent_slides, setActive_length]
    · split <;> simp [updateContent_slides, setActive_length]

lemma updateSlide_pets (s : SliderState) (i : Int) (a : Bool) :
    (updateSlide s i a).pets = s.pets := by
  unfold updateSlide
  split
  · rfl
  · dsimp only
    split
    · rw [updateContent_pets]
      split <;> simp [updateContent_pets]
    · split <;> simp [updateContent_pets]

lemma updateSlide_currentIndex (s : SliderState) (i : Int) (ht : s.isTransitioning = false) :
    (updateSlide s i true).currentIndex = i := by
  unfold updateSlide
  rw [if_neg (by simp [ht])]

lemma updateSlide_isTransitioning (s : SliderState) (i : Int) (ht : s.isTransitioning = false) :
    (updateSlide s i true).isTransitioning = true := by
  unfold updateSlide
  rw [if_neg (by simp [ht])]
  dsimp only
  split <;> (try simp only [updateContent_isTransitioning]) <;> split <;>
    simp [updateContent_isTransitioning]

lemma goToSlide_slides_length (s : SliderState) (i : Int) :
    (goToSlide s i).slides.length = s.slides.length := by
  unfold goToSlide
  split
  · rfl
  · exact updateSlide_slides_length s i true

lemma goToSlide_currentIndex_cases (s : SliderState) (i : Int) :
    (goToSlide s i).currentIndex = s.currentIndex ∨ (goToSlide s i).currentIndex = i := by
  unfold goToSlide
  split
  · exact Or.inl rfl
  next h =>
    push_neg at h
    exact Or.inr (updateSlide_currentIndex s i (by simpa using h.1))

lemma step_slides_length (s : SliderState) (c : Cmd) :
    (step s c).slides.length = s.slides.length := by
  cases c with
  | next =>
      show (nextSlide s).slides.length = s.slides.length
      unfold nextSlide
      split
      · rfl
      · exact goToSlide_slides_length _ _
  | prev =>
      show (prevSlide s).slides.length = s.slides.length
      unfold prevSlide
      split
      · rfl
      · exact goToSlide_slides_length _ _
  | goto i => exact goToSlide_slides_length s i
  | complete => rfl

/-! ### C2: out-of-bounds `goto` -/

/-- C2 counterexample: from the idle three-slide state, `goto 5` is *not*
rejected: the state changes and an out-of-bounds `currentIndex = 5` is
committed. -/
theorem goto_out_of_bounds_accepted :
    step idleState (Cmd.goto 5) ≠ idleState ∧
    (step idleState (Cmd.goto 5)).currentIndex = 5 ∧
    ¬ ((step idleState (Cmd.goto 5)).currentIndex < (idleState.slides.length : Int)) := by
  refine ⟨?_, ?_, ?_⟩ <;> decide

lemma step_currentIndex_inbounds (s : SliderState) (c : Cmd)
    (h1 : 0 ≤ s.currentIndex) (h2 : s.currentIndex < (s.slides.length : Int))
    (hc : ∀ i, c = Cmd.goto i → 0 ≤ i ∧ i < (s.slides.length : Int)) :
    0 ≤ (step s c).currentIndex ∧ (step s c).currentIndex < (s.slides.length : Int) := by
  have hN : 0 < (s.slides.length : Int) := lt_of_le_of_lt h1 h2
  cases c with
  | next =>
      show 0 ≤ (nextSlide s).currentIndex ∧ (nextSlide s).currentIndex < (s.slides.length : Int)
      unfold nextSlide
      split
      · exact ⟨h1, h2⟩
      · rcases goToSlide_currentIndex_cases s ((s.currentIndex + 1).tmod (s.slides.length : Int))
          with h | h <;> rw [h]
        · exact ⟨h1, h2⟩
        · rw [Int.tmod_eq_emod (by omega) (by omega)]
          exact ⟨Int.emod_nonneg _ (by omega), Int.emod_lt_of_pos _ hN⟩
  | prev =>
      show 0 ≤ (prevSlide s).currentIndex ∧ (prevSlide s).currentIndex < (s.slides.length : Int)
      unfold prevSlide
      split
      · exact ⟨h1, h2⟩
      · rcases goToSlide_currentIndex_cases s
          (if s.currentIndex = 0 then (s.slides.length : Int) - 1 else s.currentIndex - 1)
          with h | h <;> rw [h]
        · exact ⟨h1, h2⟩
        · split <;> omega
  | goto i =>
      show 0 ≤ (goToSlide s i).currentIndex ∧ (goToSlide s i).currentIndex < (s.slides.length : Int)
      rcases goToSlide_currentIndex_cases s i with h | h <;> rw [h]
      · exact ⟨h1, h2⟩
      · exact hc i rfl
  | complete => exact ⟨h1, h2⟩

lemma runCmds_slides_length (s : SliderState) (cs : List Cmd) :
    (runCmds s cs).slides.length = s.slides.length := by
  induction cs generalizing s with
  | nil => rfl
  | cons c rest ih =>
      show (runCmds (step s c) rest).slides.length = s.slides.length
      rw [ih, step_slides_length]

/-- C2 amended: `goToSlide` performs no bounds check of its own (see the
counterexample), but for every command sequence in which each `goto` carries an
in-bounds index — which is how the repository generates them: `next`/`prev`
wrap, and the dot handlers pass dot positions — `currentIndex` stays a valid
slide index throughout. -/
theorem currentIndex_valid_for_inbounds_sequences (s : SliderState) (cs : List Cmd)
    (h1 : 0 ≤ s.currentIndex) (h2 : s.currentIndex < (s.slides.length : Int))
    (hcs : ∀ i, Cmd.goto i ∈ cs → 0 ≤ i ∧ i < (s.slides.length : Int)) :
    0 ≤ (runCmds s cs).currentIndex ∧
      (runCmds s cs).currentIndex < ((runCmds s cs).slides.length : Int) := by
  rw [runCmds_slides_length]
  induction cs generalizing s with
  | nil => exact ⟨h1, h2⟩
  | cons c rest ih =>
      have hstep := step_currentIndex_inbounds s c h1 h2
        (fun i hi => hcs i (by rw [← hi]; exact List.mem_cons_self c rest))
      have hlen := step_slides_length s c
      have hrest := ih (step s c) hstep.1 (by rw [hlen]; exact hstep.2)
        (fun i hi => by rw [hlen]; exact hcs i (List.mem_cons_of_mem c hi))
      show 0 ≤ (runCmds (step s c) rest).currentIndex ∧
        (runCmds (step s c) rest).currentIndex < (s.slides.length : Int)
      rw [← hlen]
      exact hrest

/-- Witness for the amended C2 on a concrete sequence containing an in-bounds
`goto`. -/
theorem currentIndex_valid_for_inbounds_sequences_witness :
    0 ≤ (runCmds idleState [Cmd.goto 2, Cmd.complete, Cmd.next]).currentIndex ∧
      (runCmds idleState [Cmd.goto 2, Cmd.complete, Cmd.next]).currentIndex <
        ((runCmds idleState [Cmd.goto 2, Cmd.complete, Cmd.next]).slides.length : Int) :=
  currentIndex_valid_for_inbounds_sequences idleState [Cmd.goto 2, Cmd.complete, Cmd.next]
    (by decide) (by decide)
    (by intro i hi; simp at hi; subst hi; decide)

/-! ### C3: the autoplay delay default -/

/-- C3 counterexample: when the caller supplies no `autoPlayDelay` option, the
constructor falls back to 5000 ms, not 6000 ms. -/
theorem autoplay_default_is_not_6000 : autoPlayDelayOf none ≠ 6000 := by decide

/-- C3 amended: the constructor default for `autoPlayDelay` is 5000 ms; the
6000 ms period comes from the page initializer passing `autoPlayDelay: 6000`
explicitly; while autoplay is enabled (and more than one slide exists) the
installed periodic timer has exactly that period and each tick issues `next`. -/
theorem autoplay_delay_and_timer (n : Nat) (hn : 1 < n) :
    autoPlayDelayOf none = 5000 ∧
    autoPlayDelayOf pageInitAutoPlayDelay = 6000 ∧
    startAutoPlayPeriod true n (autoPlayDelayOf pageInitAutoPlayDelay) = some 6000 ∧
    ∀ s : SliderState, autoPlayTick s = step s Cmd.next := by
  refine ⟨rfl, rfl, ?_, fun s => rfl⟩
  unfold startAutoPlayPeriod
  rw [if_pos ⟨rfl, hn⟩]
  decide

/-- Witness for the amended C3 with three slides. -/
theorem autoplay_delay_and_timer_witness :
    autoPlayDelayOf none = 5000 ∧
    autoPlayDelayOf pageInitAutoPlayDelay = 6000 ∧
    startAutoPlayPeriod true 3 (autoPlayDelayOf pageInitAutoPlayDelay) = some 6000 ∧
    ∀ s : SliderState, autoPlayTick s = step s Cmd.next :=
  autoplay_delay_and_timer 3 (by decide)

/-! ### C4: wraparound and inverse laws -/

lemma goToSlide_noop (s : SliderState) (j : Int)
    (h : s.isTransitioning = true ∨ j = s.currentIndex) : goToSlide s j = s := by
  unfold goToSlide
  rw [if_pos h]

lemma goToSlide_currentIndex_go (s : SliderState) (j : Int) (ht : s.isTransitioning = false)
    (hne : j ≠ s.currentIndex) : (goToSlide s j).currentIndex = j := by
  unfold goToSlide
  rw [if_neg (not_or.mpr ⟨by simp [ht], hne⟩)]
  exact updateSlide_currentIndex s j ht

lemma nextCompleted_spec (s : SliderState)
    (h1 : 0 ≤ s.currentIndex) (ht : s.isTransitioning = false) :
    (nextCompleted s).currentIndex = (s.currentIndex + 1) % (s.slides.length : Int) ∧
    (nextCompleted s).isTransitioning = false ∧
    (nextCompleted s).slides.length = s.slides.length := by
  have htm : (s.currentIndex + 1).tmod (s.slides.length : Int)
      = (s.currentIndex + 1) % (s.slides.length : Int) :=
    Int.tmod_eq_emod (by omega) (by omega)
  refine ⟨?_, rfl,
    (step_slides_length (step s Cmd.next) Cmd.complete).trans (step_slides_length s Cmd.next)⟩
  show (nextSlide s).currentIndex = _
  unfold nextSlide
  rw [if_neg (by simp [ht]), htm]
  by_cases he : (s.currentIndex + 1) % (s.slides.length : Int) = s.currentIndex
  · rw [goToSlide_noop s _ (Or.inr he)]
    exact he.symm
  · exact goToSlide_currentIndex_go s _ ht he

lemma prevCompleted_spec (s : SliderState) (ht : s.isTransitioning = false) :
    (prevCompleted s).currentIndex =
      (if s.currentIndex = 0 then (s.slides.length : Int) - 1 else s.currentIndex - 1) := by
  show (prevSlide s).currentIndex = _
  unfold prevSlide
  rw [if_neg (by simp [ht])]
  by_cases he : (if s.currentIndex = 0 then (s.slides.length : Int) - 1
      else s.currentIndex - 1) = s.currentIndex
  · rw [goToSlide_noop s _ (Or.inr he)]
    exact he.symm
  · exact goToSlide_currentIndex_go s _ ht he

lemma nextCompleted_iterate (s : SliderState) (k : Nat)
    (h1 : 0 ≤ s.currentIndex) (h2 : s.currentIndex < (s.slides.length : Int))
    (ht : s.isTransitioning = false) :
    (nextCompleted^[k] s).currentIndex = (s.currentIndex + k) % (s.slides.length : Int) ∧
    (nextCompleted^[k] s).isTransitioning = false ∧
    (nextCompleted^[k] s).slides.length = s.slides.length := by
  have hN : 0 < (s.slides.length : Int) := lt_of_le_of_lt h1 h2
  induction k with
  | zero =>
      refine ⟨?_, ht, rfl⟩
      simp only [Function.iterate_zero_apply, Nat.cast_zero, add_zero]
      exact (Int.emod_eq_of_lt h1 h2).symm
  | succ k ih =>
      obtain ⟨hc, hf, hl⟩ := ih
      rw [Function.iterate_succ_apply']
      obtain ⟨nc, nf, nl⟩ := nextCompleted_spec (nextCompleted^[k] s)
        (by rw [hc]; exact Int.emod_nonneg _ (by omega)) hf
      refine ⟨?_, nf, by rw [nl, hl]⟩
      rw [nc, hl, hc, Int.emod_add_emod]
      have harg : s.currentIndex + (k : Int) + 1 = s.currentIndex + ((k + 1 : Nat) : Int) := by
        push_cast; ring
      rw [harg]

/-- C4: with all transitions allowed to complete, issuing `next` as many times
as there are slides returns `currentIndex` to its starting value, and a
completed `prev` undoes a completed `next`. -/
theorem next_wraparound_prev_inverse (s : SliderState)
    (h1 : 0 ≤ s.currentIndex) (h2 : s.currentIndex < (s.slides.length : Int))
    (ht : s.isTransitioning = false) :
    (nextCompleted^[s.slides.length] s).currentIndex = s.currentIndex ∧
    (prevCompleted (nextCompleted s)).currentIndex = s.currentIndex := by
  have hN : 0 < (s.slides.length : Int) := lt_of_le_of_lt h1 h2
  constructor
  · obtain ⟨hc, -, -⟩ := nextCompleted_iterate s s.slides.length h1 h2 ht
    rw [hc, Int.add_emod_self]
    exact Int.emod_eq_of_lt h1 h2
  · obtain ⟨nc, nf, nl⟩ := nextCompleted_spec s h1 ht
    rw [prevCompleted_spec (nextCompleted s) nf]
    by_cases hz : (nextCompleted s).currentIndex = 0
    · rw [if_pos hz, nl]
      have h0 : (s.currentIndex + 1) % (s.slides.length : Int) = 0 := by rw [← nc]; exact hz
      rcases lt_or_eq_of_le (by omega : s.currentIndex + 1 ≤ (s.slides.length : Int))
        with hlt | heq
      · rw [Int.emod_eq_of_lt (by omega) hlt] at h0; omega
      · omega
    · rw [if_neg hz]
      have hlt : s.currentIndex + 1 < (s.slides.length : Int) := by
        rcases lt_or_eq_of_le (by omega : s.currentIndex + 1 ≤ (s.slides.length : Int))
          with hlt | heq
        · exact hlt
        · exfalso
          apply hz
          rw [nc, heq]
          exact Int.emod_self
      rw [nc, Int.emod_eq_of_lt (by omega) hlt]
      omega

/-- Witness for C4 on the concrete idle three-slide state. -/
theorem next_wraparound_prev_inverse_witness :
    (nextCompleted^[3] idleState).currentIndex = 0 ∧
    (prevCompleted (nextCompleted idleState)).currentIndex = 0 := by
  have h := next_wraparound_prev_inverse idleState (by decide) (by decide) rfl
  simpa using h

/-! ### C8: counter zero-padding -/

lemma toDigitsCore_length_ge (b : Nat) :
    ∀ (f n : Nat) (l : List Char), 0 < f →
      l.length + 1 ≤ (Nat.toDigitsCore b f n l).length := by
  intro f
  induction f with
  | zero => intro n l h; exact absurd h (lt_irrefl 0)
  | succ f ih =>
      intro n l _
      simp only [Nat.toDigitsCore]
      split
      · simp
      · rcases Nat.eq_zero_or_pos f with hf | hf
        · subst hf
          simp [Nat.toDigitsCore]
        · have h := ih (n / b) (Nat.digitChar (n % b) :: l) hf
          simp only [List.length_cons] at h
          omega

lemma repr_length_ge_two (n : Nat) (h : 10 ≤ n) : 2 ≤ (Nat.repr n).length := by
  have hne : ¬ (n / 10 = 0) := by
    have h1 : 1 ≤ n / 10 := (Nat.le_div_iff_mul_le (by norm_num)).mpr (by omega)
    omega
  show 2 ≤ (List.asString (Nat.toDigitsCore 10 (n + 1) n [])).length
  have hlen : ∀ l : List Char, (List.asString l).length = l.length := fun l => rfl
  rw [hlen]
  simp only [Nat.toDigitsCore]
  rw [if_neg hne]
  have h2 := toDigitsCore_length_ge 10 n (n / 10) [Nat.digitChar (n % 10)] (by omega)
  simpa using h2

/-- C8: the rendered counter is the decimal numeral of `i + 1` left-padded
with `'0'` to at least two digits — one pad zero for the one-digit numerals
`1..9`, none once the numeral already has two digits; in particular index 0
renders `"01"` and index 9 renders `"10"`. -/
theorem counter_zero_padded (i : Nat) :
    counterText (i : Int) =
      (if i + 1 < 10 then "0" ++ Nat.repr (i + 1) else Nat.repr (i + 1)) ∧
    counterText 0 = "01" ∧ counterText 9 = "10" := by
  refine ⟨?_, by decide, by decide⟩
  have hcast : ((i : Int) + 1) = ((i + 1 : Nat) : Int) := by push_cast; ring
  have hts : toString ((i : Int) + 1) = Nat.repr (i + 1) := by rw [hcast]; rfl
  unfold counterText padStart
  rw [hts]
  by_cases h : i + 1 < 10
  · rw [if_pos h]
    have hub : i ≤ 8 := by omega
    interval_cases i <;> decide
  · rw [if_neg h]
    have h2 : 2 ≤ (Nat.repr (i + 1)).length := repr_length_ge_two _ (by omega)
    rw [Nat.sub_eq_zero_of_le h2]
    rfl

/-! ### C9: stagger-delay laws -/

/-- C9: the `'end'` delay list is the reverse of the `'start'` list; the
`'start'` list's entry `j` is `j * d`; and every delay either list produces is
a non-negative integer multiple of the stagger delay `d`. -/
theorem stagger_end_reverse_of_start (n : Nat) (d : ℚ) :
    calculateStaggerDelays n d StaggerFrom.fromEnd =
      (calculateStaggerDelays n d StaggerFrom.fromStart).reverse ∧
    (∀ j, j < n → (calculateStaggerDelays n d StaggerFrom.fromStart).getD j 0 = j * d) ∧
    (∀ x ∈ calculateStaggerDelays n d StaggerFrom.fromStart, ∃ k : Nat, x = k * d) ∧
    (∀ x ∈ calculateStaggerDelays n d StaggerFrom.fromEnd, ∃ k : Nat, x = k * d) := by
  refine ⟨?_, ?_, ?_, ?_⟩
  · apply List.ext_getElem
    · simp only [calculateStaggerDelays, List.length_reverse, List.length_map,
        List.length_range]
    · intro j h1 h2
      rw [List.getElem_reverse]
      simp only [calculateStaggerDelays, List.getElem_map, List.getElem_range,
        List.length_map, List.length_range]
  · intro j hj
    simp only [calculateStaggerDelays]
    rw [List.getD_eq_getElem?_getD, List.getElem?_map, List.getElem?_range hj]
    rfl
  · intro x hx
    simp only [calculateStaggerDelays, List.mem_map, List.mem_range] at hx
    obtain ⟨k, -, hk⟩ := hx
    exact ⟨k, hk.symm⟩
  · intro x hx
    simp only [calculateStaggerDelays, List.mem_map, List.mem_range] at hx
    obtain ⟨k, -, hk⟩ := hx
    exact ⟨n - 1 - k, hk.symm⟩

/-- Witness for C9 at `n = 3`, `d = 2`. -/
theorem stagger_end_reverse_of_start_witness :
    calculateStaggerDelays 3 2 StaggerFrom.fromEnd =
      (calculateStaggerDelays 3 2 StaggerFrom.fromStart).reverse ∧
    (calculateStaggerDelays 3 2 StaggerFrom.fromStart).getD 1 0 = 2 := by
  have h := stagger_end_reverse_of_start 3 2
  refine ⟨h.1, ?_⟩
  have h1 := h.2.1 1 (by omega)
  simpa using h1

/-! ### C10: transitions past the end of the pets array -/

/-- A pets-shorter-than-slides sample state. -/
def shortPetsState : SliderState :=
  { slides := [true, false, false]
    dots := [true, false, false]
    pets := [{ id := 7, name := "Rex", age := 3, breed := "mix" }]
    currentIndex := 0
    isTransitioning := false
    content := blankContent }

/-- C10: an accepted `goto` whose target lies at or beyond the end of the pets
array still commits `currentIndex` and moves the active slide/dot classes,
but leaves every piece of displayed content exactly as it was. -/
theorem pets_short_content_frozen (s : SliderState) (i : Int)
    (hp : (s.pets.length : Int) ≤ i) (ht : s.isTransitioning = false)
    (hne : i ≠ s.currentIndex) :
    (step s (Cmd.goto i)).content = s.content ∧
    (step s (Cmd.goto i)).currentIndex = i ∧
    (step s (Cmd.goto i)).isTransitioning = true ∧
    (step s (Cmd.goto i)).slides = setActive (setActive s.slides s.currentIndex false) i true ∧
    (step s (Cmd.goto i)).dots = setActive (setActive s.dots s.currentIndex false) i true := by
  have hgoto : step s (Cmd.goto i) = updateSlide s i true := by
    show goToSlide s i = _
    unfold goToSlide
    rw [if_neg (not_or.mpr ⟨by simp [ht], hne⟩)]
  have hpet : petAt s.pets i = none := by
    unfold petAt
    split
    · exact List.get?_eq_none.mpr (by omega)
    · rfl
  have hgt : ¬ ((s.pets.length : Int) > i) := by omega
  rw [hgoto]
  unfold updateSlide
  rw [if_neg (by simp [ht])]
  dsimp only
  rw [if_neg hgt, if_pos rfl]
  unfold updateContent
  rw [hpet]
  exact ⟨rfl, rfl, rfl, rfl, rfl⟩

/-- Witness for C10: three slides, one pet, `goto 2`. -/
theorem pets_short_content_frozen_witness :
    (step shortPetsState (Cmd.goto 2)).content = shortPetsState.content ∧
    (step shortPetsState (Cmd.goto 2)).currentIndex = 2 ∧
    (step shortPetsState (Cmd.goto 2)).isTransitioning = true ∧
    (step shortPetsState (Cmd.goto 2)).slides =
      setActive (setActive shortPetsState.slides shortPetsState.currentIndex false) 2 true ∧
    (step shortPetsState (Cmd.goto 2)).dots =
      setActive (setActive shortPetsState.dots shortPetsState.currentIndex false) 2 true :=
  pets_short_content_frozen shortPetsState 2 (by decide) rfl (by decide)
